import Mathlib

/-!
Verification of `providers/implementations/serializers/deserialize_common.c`.

A shallow embedding of the deserializer helpers of the provider layer:
the four stream readers (`ossl_prov_read_der`, `ossl_prov_read_pem`,
`ossl_prov_read_msblob`, `ossl_prov_read_pvk`), the passphrase bridge
(`pw_pem_password_to_ossl_passhrase`) and the PKCS#8 decryptor
(`ossl_prov_der_from_p8`).

Conventions.
* A byte buffer is a list of naturals (each meant to be below 256).
* A C pointer that may be NULL is an `Option`.
* `int` is 32 bits, `long` and `size_t` are 64 bits (LP64); each implicit or
  explicit C conversion is a named function below.
* Functions of the library that the file calls but does not define are
  arguments of the embedded function (`d2i_X509_SIG`, `PKCS12_pbe_crypt`,
  `PEM_read_bio`, `ossl_b2i_bio`, `b2i_PVK_bio`, the passphrase callback), or
  are modelled where a property is about what they do (`asn1_d2i_read_bio`,
  `bio_new_from_core_bio`, `BIO_free`); each such model says so. Every call
  that a property speaks about is recorded in a trace or in the state.
* The library decoders read from the wrapper they are handed; they neither
  open nor release wrappers.
-/

namespace DeserializeCommon

/-! ## Machine integers -/

/-- Largest value of a C `int`. -/
def INT_MAX : Int := 2147483647

/-- Largest value of a C `long`. -/
def LONG_MAX : Int := 9223372036854775807

/-- Conversion of a `size_t` value to `int`: the low 32 bits, read as a
two's complement number. -/
def size_t_to_int (n : Nat) : Int :=
  if n % 4294967296 < 2147483648 then ((n % 4294967296 : Nat) : Int)
  else ((n % 4294967296 : Nat) : Int) - 4294967296

/-- Conversion of a `size_t` value to `long`: the low 64 bits, read as a
two's complement number. -/
def size_t_to_long (n : Nat) : Int :=
  if n % 18446744073709551616 < 9223372036854775808
  then ((n % 18446744073709551616 : Nat) : Int)
  else ((n % 18446744073709551616 : Nat) : Int) - 18446744073709551616

/-- The cast `(size_t)size` of an `int`: reduction modulo `2^64`. -/
def int_to_size_t (i : Int) : Nat := (i % 18446744073709551616).toNat

/-- Conversion of an `int` to `long`: every `int` value is a `long` value. -/
def int_to_long (i : Int) : Int := i

/-! ## Data model -/

/-- A byte buffer. -/
abbrev Bytes := List Nat

/-- Data type tags of an `OSSL_PARAM` entry (only the ones used here). -/
inductive ParamDataType where
  | NONE
  | UTF8_STRING
deriving DecidableEq, Repr

/-- One `OSSL_PARAM` array entry: key, data type, data and data size. -/
structure OSSL_PARAM where
  key : Option String
  data_type : ParamDataType
  data : Option String
  data_size : Nat
deriving DecidableEq, Repr

/-- Modelled from the spec: the key macro `OSSL_PASSPHRASE_PARAM_INFO` of
`<openssl/core_names.h>`, the name of the "info" (prompt) entry of the
context record handed to a Passphrase Provider. -/
def OSSL_PASSPHRASE_PARAM_INFO : String := "info"

/-- Modelled from the spec: the initialiser macro `OSSL_PARAM_utf8_string`,
an entry carrying a text with its byte count. -/
def OSSL_PARAM_utf8_string (key : String) (addr : String) (sz : Nat) : OSSL_PARAM :=
  { key := some key, data_type := ParamDataType.UTF8_STRING, data := some addr, data_size := sz }

/-- Modelled from the spec: the terminator macro `OSSL_PARAM_END`. -/
def OSSL_PARAM_END : OSSL_PARAM :=
  { key := none, data_type := ParamDataType.NONE, data := none, data_size := 0 }

/-- What a Passphrase Provider leaves behind: its `int` return value
(non-zero is success), the contents of the `pass` buffer and the value of
`*pass_len`. -/
structure PassphraseOut where
  ret : Int
  pass : Bytes
  pass_len : Nat
deriving DecidableEq, Repr

/-- The type `OSSL_PASSPHRASE_CALLBACK`:
`int cb(char *pass, size_t pass_size, size_t *pass_len, const OSSL_PARAM params[], void *arg)`.
The arguments are the buffer contents on entry, the capacity, the value of
`*pass_len` on entry, the parameter array (or NULL) and the opaque argument. -/
abbrev OSSL_PASSPHRASE_CALLBACK (α : Type) :=
  Bytes → Nat → Nat → Option (List OSSL_PARAM) → α → PassphraseOut

/-- The arguments of one invocation of a Passphrase Provider. -/
structure ProviderCall (α : Type) where
  pass : Bytes
  pass_size : Nat
  pass_len : Nat
  params : Option (List OSSL_PARAM)
  arg : α
deriving DecidableEq, Repr

/-- The record `struct pwdata_st`. -/
structure pwdata_st (α : Type) where
  pw_cb : OSSL_PASSPHRASE_CALLBACK α
  pw_cbarg : α

/-! ## The passphrase bridge -/

/-- The static array `prompt_info`, without its terminating NUL. -/
def prompt_info : String := "pass phrase"

/-- The value of `sizeof(prompt_info)`: the characters and the NUL. -/
def sizeof_prompt_info : Nat := prompt_info.length + 1

/-- What `pw_pem_password_to_ossl_passhrase` leaves behind: its return
value, the caller's buffer, and the provider invocations it made. -/
structure BridgeResult (α : Type) where
  ret : Int
  buf : Bytes
  calls : List (ProviderCall α)

/-- The function `pw_pem_password_to_ossl_passhrase`. -/
def pw_pem_password_to_ossl_passhrase {α : Type} (buf : Bytes) (size : Int) (_rwflag : Int)
    (userdata : pwdata_st α) : BridgeResult α :=
  let data := userdata
  let pw_len : Nat := 0
  let params : List OSSL_PARAM :=
    [OSSL_PARAM_utf8_string OSSL_PASSPHRASE_PARAM_INFO prompt_info (sizeof_prompt_info - 1),
     OSSL_PARAM_END]
  let call : ProviderCall α :=
    { pass := buf, pass_size := int_to_size_t size, pass_len := pw_len,
      params := some params, arg := data.pw_cbarg }
  let r := data.pw_cb buf (int_to_size_t size) pw_len (some params) data.pw_cbarg
  let ok := r.ret
  if ok ≠ 0 then
    { ret := size_t_to_int r.pass_len, buf := r.pass, calls := [call] }
  else
    { ret := -1, buf := r.pass, calls := [call] }

/-! ## The PKCS#8 decryptor -/

/-- An algorithm identifier (`X509_ALGOR`): object identifier and parameters,
both opaque to this layer. -/
structure X509_ALGOR where
  algorithm : Bytes
  parameter : Bytes
deriving DecidableEq, Repr

/-- An octet string (`ASN1_OCTET_STRING`): an `int` length and the data. -/
structure ASN1_OCTET_STRING where
  length : Int
  data : Bytes
deriving DecidableEq, Repr

/-- The envelope `X509_SIG`: algorithm identifier and octet string. -/
structure X509_SIG where
  algor : X509_ALGOR
  digest : ASN1_OCTET_STRING
deriving DecidableEq, Repr

/-- Modelled from the spec: the accessor `X509_SIG_get0`, which hands out the
algorithm identifier and the ciphertext octet string of an envelope. -/
def X509_SIG_get0 (p8 : X509_SIG) : X509_ALGOR × ASN1_OCTET_STRING := (p8.algor, p8.digest)

/-- Modelled from the spec: the constant `PEM_BUFSIZE` of `<openssl/pem.h>`,
the capacity of the stack buffer that receives the passphrase. -/
def PEM_BUFSIZE : Nat := 1024

/-- Error libraries named in the file. -/
inductive ErrLib where
  | ERR_LIB_PROV
deriving DecidableEq, Repr

/-- Error reasons named in the file. -/
inductive ErrReason where
  | PROV_R_READ_KEY
deriving DecidableEq, Repr

/-- The arguments of one invocation of `PKCS12_pbe_crypt` (the output
pointers apart). -/
structure CryptCall where
  algor : X509_ALGOR
  pass : Bytes
  passlen : Int
  inp : Bytes
  inlen : Int
  en_de : Int
deriving DecidableEq, Repr

/-- The calls `ossl_prov_der_from_p8` makes, in order. -/
inductive Event (α : Type) where
  | d2i_X509_SIG (der : Bytes) (len : Int)
  | pw_cb (c : ProviderCall α)
  | ERR_raise (lib : ErrLib) (reason : ErrReason)
  | PKCS12_pbe_crypt (c : CryptCall)
  | X509_SIG_free (p8 : Option X509_SIG)

/-- The provider invocations of a trace. -/
def providerCalls {α : Type} : List (Event α) → List (ProviderCall α)
  | [] => []
  | Event.pw_cb c :: t => c :: providerCalls t
  | _ :: t => providerCalls t

/-- The decrypt invocations of a trace. -/
def cryptCalls {α : Type} : List (Event α) → List CryptCall
  | [] => []
  | Event.PKCS12_pbe_crypt c :: t => c :: cryptCalls t
  | _ :: t => cryptCalls t

/-- The errors raised in a trace. -/
def raisedErrors {α : Type} : List (Event α) → List (ErrLib × ErrReason)
  | [] => []
  | Event.ERR_raise l r :: t => (l, r) :: raisedErrors t
  | _ :: t => raisedErrors t

/-- The library functions `ossl_prov_der_from_p8` calls.

* `d2i_X509_SIG der len` parses `len` bytes at `der` as an envelope, NULL
  (`none`) when they are not one.
* `PKCS12_pbe_crypt algor pass passlen inp inlen en_de` has the prototype of
  `<openssl/pkcs12.h>` (`int passlen`, `int inlen`, `int *datalen`). It
  returns NULL (`none`) and stores nothing on failure; on success it returns
  the output buffer, which it also stores in `*data`, and stores the output
  length in `*datalen` (`some (out, datalen)`). -/
structure P8Externals where
  d2i_X509_SIG : Bytes → Int → Option X509_SIG
  PKCS12_pbe_crypt : X509_ALGOR → Bytes → Int → Bytes → Int → Int → Option (Bytes × Int)

/-- Modelled from the spec: the macro `ossl_assert` of `internal/cryptlib.h`
in a release build, the truth value of its argument. -/
def ossl_assert (x : Bool) : Bool := x

/-- What `ossl_prov_der_from_p8` leaves behind: the return value, the
pointers `new_der` (with `*new_der`) and `new_der_len` (with `*new_der_len`),
and the calls made. -/
structure P8Result (α : Type) where
  ret : Int
  new_der : Option (Option Bytes)
  new_der_len : Option Int
  trace : List (Event α)

/-- The function `ossl_prov_der_from_p8`. The argument `pbuf` is the
indeterminate initial content of the automatic array `char pbuf[PEM_BUFSIZE]`. -/
def ossl_prov_der_from_p8 {α : Type} (ext : P8Externals) (pbuf : Bytes)
    (new_der : Option (Option Bytes)) (new_der_len : Option Int)
    (input_der : Bytes) (input_der_len : Int)
    (pw_cb : OSSL_PASSPHRASE_CALLBACK α) (pw_cbarg : α) : P8Result α :=
  if (!ossl_assert (new_der.isSome && new_der == some none))
      || (!ossl_assert new_der_len.isSome) then
    { ret := 0, new_der := new_der, new_der_len := new_der_len, trace := [] }
  else
    let derp := input_der
    match ext.d2i_X509_SIG derp input_der_len with
    | none =>
      { ret := 0, new_der := new_der, new_der_len := new_der_len,
        trace := [Event.d2i_X509_SIG derp input_der_len, Event.X509_SIG_free none] }
    | some p8 =>
      let plen : Nat := 0
      let call : ProviderCall α :=
        { pass := pbuf, pass_size := PEM_BUFSIZE, pass_len := plen, params := none,
          arg := pw_cbarg }
      let r := pw_cb pbuf PEM_BUFSIZE plen none pw_cbarg
      if r.ret = 0 then
        { ret := 0, new_der := new_der, new_der_len := new_der_len,
          trace := [Event.d2i_X509_SIG derp input_der_len, Event.pw_cb call,
                    Event.ERR_raise ErrLib.ERR_LIB_PROV ErrReason.PROV_R_READ_KEY,
                    Event.X509_SIG_free (some p8)] }
      else
        let alg := (X509_SIG_get0 p8).1
        let oct := (X509_SIG_get0 p8).2
        let len : Int := 0
        let c : CryptCall :=
          { algor := alg, pass := r.pass, passlen := size_t_to_int r.pass_len,
            inp := oct.data, inlen := oct.length, en_de := 0 }
        let tr : List (Event α) :=
          [Event.d2i_X509_SIG derp input_der_len, Event.pw_cb call,
           Event.PKCS12_pbe_crypt c, Event.X509_SIG_free (some p8)]
        match ext.PKCS12_pbe_crypt alg r.pass (size_t_to_int r.pass_len)
            oct.data oct.length 0 with
        | some (out, datalen) =>
          { ret := 1, new_der := some (some out), new_der_len := some (int_to_long datalen),
            trace := tr }
        | none =>
          { ret := 0, new_der := new_der, new_der_len := some (int_to_long len), trace := tr }

/-! ## The stream readers -/

/-- The provider context `PROV_CTX`, opaque to this file. -/
structure PROV_CTX where
  handle : Nat
deriving DecidableEq, Repr

/-- A stream wrapper ( `BIO` object): its identity and the bytes of the
Byte Source ( `OSSL_CORE_BIO`) it reads from. -/
structure BIO where
  id : Nat
  core : Bytes
deriving DecidableEq, Repr

/-- The wrappers of the process as explicit state: the next unused identity,
the wrappers that are open, and the wrappers released so far, in order. -/
structure BioWorld where
  next_id : Nat
  live : List Nat
  freed : List Nat
deriving DecidableEq, Repr

/-- Every open wrapper has an identity that was already handed out. -/
def BioWorld.fresh (w : BioWorld) : Prop := ∀ i ∈ w.live, i < w.next_id

/-- Modelled from the spec: `bio_new_from_core_bio` of `prov/bio.h`, which
is not part of this file. It wraps the Byte Source it is given in a new, open
stream wrapper. -/
def bio_new_from_core_bio (w : BioWorld) (_provctx : PROV_CTX) (corebio : Bytes) :
    Option BIO × BioWorld :=
  (some { id := w.next_id, core := corebio },
   { next_id := w.next_id + 1, live := w.next_id :: w.live, freed := w.freed })

/-- Modelled from the spec: `BIO_free` of `<openssl/bio.h>`, which is not
part of this file. It releases (closes) a wrapper; on NULL it does nothing. -/
def BIO_free (w : BioWorld) (a : Option BIO) : BioWorld :=
  match a with
  | none => w
  | some b => { next_id := w.next_id, live := w.live.erase b.id, freed := w.freed ++ [b.id] }

/-- The growable buffer `BUF_MEM`: the content length and the data. -/
structure BUF_MEM where
  length : Nat
  data : Bytes
deriving DecidableEq, Repr

/-- Continuation octets of a high-tag-number identifier: octets with the top
bit set, closed by one without it. Returns the octets read and the rest. -/
def readIdentTail : Bytes → Option (Bytes × Bytes)
  | [] => none
  | b :: t =>
    if b < 128 then some ([b], t)
    else if b < 256 then
      match readIdentTail t with
      | none => none
      | some (i, r) => some (b :: i, r)
    else none

/-- The identifier (tag) octets of a value, X.690 8.1.2. Returns the octets
read and the rest of the stream. -/
def readIdent : Bytes → Option (Bytes × Bytes)
  | [] => none
  | b :: t =>
    if 256 ≤ b then none
    else if b % 32 = 31 then
      match readIdentTail t with
      | none => none
      | some (i, r) => some (b :: i, r)
    else some ([b], t)

/-- The number written by big-endian base-256 octets. -/
def beValue (bs : Bytes) : Nat := bs.foldl (fun acc b => acc * 256 + b) 0

/-- The length octets of a value under DER, X.690 8.1.3 and 10.1: the short
form below 128, otherwise the long form with the fewest octets; the
indefinite form (128) and the reserved octet (255) are malformed. Returns the
declared content length, the octets read and the rest of the stream. -/
def readLength : Bytes → Option (Nat × Bytes × Bytes)
  | [] => none
  | l :: t =>
    if l < 128 then some (l, [l], t)
    else if l = 128 ∨ 255 ≤ l then none
    else if t.length < l - 128 then none
    else if (t.take (l - 128)).head? = some 0 then none
    else if beValue (t.take (l - 128)) < 128 then none
    else some (beValue (t.take (l - 128)), l :: t.take (l - 128), t.drop (l - 128))

/-- Modelled from the spec: `asn1_d2i_read_bio` of `crypto/asn1.h`, which is
not part of this file. Following section 4.1 it reads the outer tag and
length header, then exactly that many content bytes, and fails if the stream
is short or the length field is malformed; the buffer it hands back holds
exactly the bytes of that value, header included. The result `some mem`
stands for a non-negative return value with `*pb = mem`, and `none` for a
negative return value, which leaves `*pb` alone. -/
def asn1_d2i_read_bio (a : Option BIO) : Option BUF_MEM :=
  match a with
  | none => none
  | some b =>
    match readIdent b.core with
    | none => none
    | some (ident, r1) =>
      match readLength r1 with
      | none => none
      | some (n, lenOctets, r2) =>
        if r2.length < n then none
        else some { length := (ident ++ lenOctets ++ r2.take n).length,
                    data := ident ++ lenOctets ++ r2.take n }

/-- What `ossl_prov_read_der` leaves behind: the return value, `*data`,
`*len` and the wrappers. -/
structure ReadDerResult where
  ret : Int
  data : Option Bytes
  len : Int
  world : BioWorld
deriving DecidableEq, Repr

/-- The function `ossl_prov_read_der`. The arguments `data` and `len` are
the values of `*data` and `*len` on entry. The test
`asn1_d2i_read_bio(in, &mem) >= 0` is the case distinction on the result of
the modelled reader: `some mem` is the non-negative return, with `ok = 1`. -/
def ossl_prov_read_der (w : BioWorld) (provctx : PROV_CTX) (cin : Bytes)
    (data : Option Bytes) (len : Int) : ReadDerResult :=
  let inb := (bio_new_from_core_bio w provctx cin).1
  let w1 := (bio_new_from_core_bio w provctx cin).2
  match asn1_d2i_read_bio inb with
  | some mem =>
    { ret := 1, data := some mem.data, len := size_t_to_long mem.length,
      world := BIO_free w1 inb }
  | none =>
    { ret := 0, data := data, len := len, world := BIO_free w1 inb }

/-- The output locations of `PEM_read_bio`: `*name`, `*header`, `*data`
and `*len`. -/
structure PemOuts where
  pem_name : Option String
  pem_header : Option String
  data : Option Bytes
  len : Int
deriving DecidableEq, Repr

/-- What `ossl_prov_read_pem` leaves behind. -/
structure ReadPemResult where
  ret : Int
  outs : PemOuts
  world : BioWorld
deriving DecidableEq, Repr

/-- The function `ossl_prov_read_pem`, over the library function
`PEM_read_bio`, which returns an `int` and the output locations as it
leaves them. -/
def ossl_prov_read_pem (PEM_read_bio : Option BIO → PemOuts → Int × PemOuts)
    (w : BioWorld) (provctx : PROV_CTX) (cin : Bytes) (outs : PemOuts) : ReadPemResult :=
  let inb := (bio_new_from_core_bio w provctx cin).1
  let w1 := (bio_new_from_core_bio w provctx cin).2
  let r := PEM_read_bio inb outs
  let ok : Int := if r.1 > 0 then 1 else 0
  let w2 := BIO_free w1 inb
  { ret := ok, outs := r.2, world := w2 }

/-- What `ossl_prov_read_msblob` leaves behind: the key object (or NULL),
`*ispub` and the wrappers. -/
structure ReadKeyResult (κ : Type) where
  pkey : Option κ
  ispub : Int
  world : BioWorld

/-- What `ossl_prov_read_pvk` leaves behind: the key object (or NULL) and
the wrappers. -/
structure ReadPvkResult (κ : Type) where
  pkey : Option κ
  world : BioWorld

/-- The function `ossl_prov_read_msblob`, over the library function
`ossl_b2i_bio`, which returns the key object and `*ispub` as it leaves it. -/
def ossl_prov_read_msblob {κ : Type} (ossl_b2i_bio : Option BIO → Int → Option κ × Int)
    (w : BioWorld) (provctx : PROV_CTX) (cin : Bytes) (ispub : Int) : ReadKeyResult κ :=
  let inb := (bio_new_from_core_bio w provctx cin).1
  let w1 := (bio_new_from_core_bio w provctx cin).2
  let r := ossl_b2i_bio inb ispub
  let w2 := BIO_free w1 inb
  { pkey := r.1, ispub := r.2, world := w2 }

/-- The type `pem_password_cb`, with its user data argument. -/
abbrev pem_password_cb (α : Type) := Bytes → Int → Int → pwdata_st α → BridgeResult α

/-- The function `ossl_prov_read_pvk`, over the library function
`b2i_PVK_bio`, which takes the wrapper, a password callback and its user
data and returns the key object. -/
def ossl_prov_read_pvk {α κ : Type}
    (b2i_PVK_bio : Option BIO → pem_password_cb α → pwdata_st α → Option κ)
    (w : BioWorld) (provctx : PROV_CTX) (cin : Bytes)
    (pw_cb : OSSL_PASSPHRASE_CALLBACK α) (pw_cbarg : α) : ReadPvkResult κ :=
  let inb := (bio_new_from_core_bio w provctx cin).1
  let w1 := (bio_new_from_core_bio w provctx cin).2
  let pwdata : pwdata_st α := { pw_cb := pw_cb, pw_cbarg := pw_cbarg }
  let pkey := b2i_PVK_bio inb pw_pem_password_to_ossl_passhrase pwdata
  let w2 := BIO_free w1 inb
  { pkey := pkey, world := w2 }

/-- The wrapper that a reader created over `cin` in the world `w` has been
released exactly once in the world `w2`: the release log grew by exactly that
wrapper, it is not open, and the open wrappers are those of `w`. -/
def ReleasedOnce (w : BioWorld) (provctx : PROV_CTX) (cin : Bytes) (w2 : BioWorld) : Prop :=
  ∃ b : BIO, (bio_new_from_core_bio w provctx cin).1 = some b ∧
    w2.freed = w.freed ++ [b.id] ∧ b.id ∉ w2.live ∧ w2.live = w.live

/-! ## Well-formed DER values, for stating the reader's contract -/

/-- The continuation octets of a high-tag-number identifier are well formed. -/
def validIdentTail : Bytes → Bool
  | [] => false
  | [b] => decide (b < 128)
  | b :: t => decide (128 ≤ b) && decide (b < 256) && validIdentTail t

/-- The identifier octets of a value are well formed: one octet whose tag
number is not 31, or an octet with tag number 31 and continuation octets. -/
def validIdent : Bytes → Bool
  | [] => false
  | [b] => decide (b < 256) && decide (b % 32 ≠ 31)
  | b :: t => decide (b < 256) && decide (b % 32 = 31) && validIdentTail t

/-- The DER length octets of a content length: short form below 128, else
the count of octets and the big-endian octets of the length. -/
def derLengthOctets (n : Nat) : Bytes :=
  if n < 128 then [n]
  else (128 + (Nat.digits 256 n).length) :: (Nat.digits 256 n).reverse

/-- One complete top-level DER value: identifier, length and content octets. -/
def derValue (ident content : Bytes) : Bytes :=
  ident ++ derLengthOctets content.length ++ content


/-! ## Concrete instances, used to exercise the statements -/

/-- A provider that hands out a fixed passphrase when it fits the buffer. -/
def fixedProvider (pw : Bytes) : OSSL_PASSPHRASE_CALLBACK Unit :=
  fun pass pass_size _ _ _ =>
    if pw.length ≤ pass_size then
      { ret := 1, pass := pw ++ pass.drop pw.length, pass_len := pw.length }
    else { ret := 0, pass := pass, pass_len := 0 }

/-- A provider that declines. -/
def decliningProvider : OSSL_PASSPHRASE_CALLBACK Unit :=
  fun pass _ n _ _ => { ret := 0, pass := pass, pass_len := n }

/-- A provider that reports success and a given length without touching the
buffer. -/
def reportingProvider (n : Nat) : OSSL_PASSPHRASE_CALLBACK Unit :=
  fun pass _ _ _ _ => { ret := 1, pass := pass, pass_len := n }

/-- Key stream byte of the toy cipher: passphrase, salt and position. -/
def toyKeyByte (A : X509_ALGOR) (pw : Bytes) (i : Nat) : Nat :=
  (pw.getD (i % pw.length) 0 + A.parameter.getD (i % A.parameter.length) 0 + i) % 256

/-- Padding of the toy cipher to a multiple of eight bytes (always added). -/
def toyPad (P : Bytes) : Bytes :=
  P ++ List.replicate (8 - P.length % 8) (8 - P.length % 8)

/-- Reference encryption of the toy cipher: pad, then add the key stream. -/
def toyEncrypt (A : X509_ALGOR) (pw : Bytes) (P : Bytes) : Bytes :=
  List.zipWith (fun p i => (p + toyKeyByte A pw i) % 256) (toyPad P)
    (List.range (toyPad P).length)

/-- Removal of the padding of the toy cipher; fails on a malformed padding. -/
def toyUnpad (D : Bytes) : Option Bytes :=
  match D.getLast? with
  | none => none
  | some v =>
    if 1 ≤ v ∧ v ≤ 8 ∧ v ≤ D.length ∧ (D.drop (D.length - v)).all (fun b => b == v) then
      some (D.take (D.length - v))
    else none

/-- The toy cipher behind the interface of `PKCS12_pbe_crypt`, decrypt mode
only: subtract the key stream, then remove the padding. -/
def toyCrypt (A : X509_ALGOR) (pass : Bytes) (passlen : Int) (inp : Bytes) (inlen : Int)
    (en_de : Int) : Option (Bytes × Int) :=
  if en_de ≠ 0 then none
  else
    match toyUnpad (List.zipWith
        (fun c i => (c + 256 - toyKeyByte A (pass.take passlen.toNat) i) % 256)
        (inp.take inlen.toNat) (List.range (inp.take inlen.toNat).length)) with
    | none => none
    | some P => some (P, (P.length : Int))

/-- A toy envelope parser: the byte 48, the length of the salt, the salt,
and the ciphertext up to the end of the input. -/
def toyD2i : Bytes → Int → Option X509_SIG
  | 48 :: n :: t, len =>
    if t.length < n ∨ len ≠ ((t.length + 2 : Nat) : Int) then none
    else some { algor := { algorithm := [], parameter := t.take n },
                digest := { length := ((t.drop n).length : Int), data := t.drop n } }
  | _, _ => none

/-- The toy library: toy parser and toy cipher. -/
def toyExt : P8Externals := { d2i_X509_SIG := toyD2i, PKCS12_pbe_crypt := toyCrypt }

/-- The algorithm identifier of the examples, with salt 1 2 3 4. -/
def toyAlg : X509_ALGOR := { algorithm := [], parameter := [1, 2, 3, 4] }

/-- The passphrase "correct-horse" as bytes. -/
def correctHorse : Bytes := "correct-horse".toList.map Char.toNat

/-- The passphrase "wrong-horse" as bytes. -/
def wrongHorse : Bytes := "wrong-horse".toList.map Char.toNat

/-- A 32-byte plaintext. -/
def plain32 : Bytes := List.range 32

/-- The toy envelope around the encryption of the 32-byte plaintext. -/
def toyEnvelope : Bytes := 48 :: 4 :: ([1, 2, 3, 4] ++ toyEncrypt toyAlg correctHorse plain32)

/-- A world with two open wrappers and one released. -/
def toyWorld : BioWorld := { next_id := 3, live := [0, 2], freed := [1] }

/-- A provider context. -/
def toyCtx : PROV_CTX := { handle := 0 }

/-- A PEM decoder that finds nothing. -/
def toyPemRead : Option BIO → PemOuts → Int × PemOuts := fun _ o => (0, o)

/-- A blob decoder that finds nothing. -/
def toyB2i : Option BIO → Int → Option Unit × Int := fun _ i => (none, i)

/-- A PVK decoder that finds nothing. -/
def toyPvk : Option BIO → pem_password_cb Unit → pwdata_st Unit → Option Unit :=
  fun _ _ _ => none

/-- Empty output locations. -/
def toyOuts : PemOuts := { pem_name := none, pem_header := none, data := none, len := 0 }


/-! ## Properties of the PKCS#8 decryptor -/

/-- Path 1: the input is not an envelope. -/
theorem p8_path_not_envelope {α : Type} (ext : P8Externals) (pbuf : Bytes) (l0 : Int)
    (input_der : Bytes) (input_der_len : Int) (pw_cb : OSSL_PASSPHRASE_CALLBACK α)
    (pw_cbarg : α) (hp : ext.d2i_X509_SIG input_der input_der_len = none) :
    ossl_prov_der_from_p8 ext pbuf (some none) (some l0) input_der input_der_len
        pw_cb pw_cbarg =
      { ret := 0, new_der := some none, new_der_len := some l0,
        trace := [Event.d2i_X509_SIG input_der input_der_len, Event.X509_SIG_free none] } := by
  simp [ossl_prov_der_from_p8, ossl_assert, hp]

/-- Path 2: the input is an envelope and the provider declines. -/
theorem p8_path_provider_declines {α : Type} (ext : P8Externals) (pbuf : Bytes) (l0 : Int)
    (input_der : Bytes) (input_der_len : Int) (pw_cb : OSSL_PASSPHRASE_CALLBACK α)
    (pw_cbarg : α) (p8 : X509_SIG)
    (hp : ext.d2i_X509_SIG input_der input_der_len = some p8)
    (hr : (pw_cb pbuf PEM_BUFSIZE 0 none pw_cbarg).ret = 0) :
    ossl_prov_der_from_p8 ext pbuf (some none) (some l0) input_der input_der_len
        pw_cb pw_cbarg =
      { ret := 0, new_der := some none, new_der_len := some l0,
        trace := [Event.d2i_X509_SIG input_der input_der_len,
                  Event.pw_cb { pass := pbuf, pass_size := PEM_BUFSIZE, pass_len := 0,
                                params := none, arg := pw_cbarg },
                  Event.ERR_raise ErrLib.ERR_LIB_PROV ErrReason.PROV_R_READ_KEY,
                  Event.X509_SIG_free (some p8)] } := by
  simp [ossl_prov_der_from_p8, ossl_assert, hp, hr]

/-- Path 3: the provider succeeds and the decrypt operation fails. -/
theorem p8_path_decrypt_fails {α : Type} (ext : P8Externals) (pbuf : Bytes) (l0 : Int)
    (input_der : Bytes) (input_der_len : Int) (pw_cb : OSSL_PASSPHRASE_CALLBACK α)
    (pw_cbarg : α) (p8 : X509_SIG)
    (hp : ext.d2i_X509_SIG input_der input_der_len = some p8)
    (hr : (pw_cb pbuf PEM_BUFSIZE 0 none pw_cbarg).ret ≠ 0)
    (hc : ext.PKCS12_pbe_crypt p8.algor (pw_cb pbuf PEM_BUFSIZE 0 none pw_cbarg).pass
          (size_t_to_int (pw_cb pbuf PEM_BUFSIZE 0 none pw_cbarg).pass_len)
          p8.digest.data p8.digest.length 0 = none) :
    ossl_prov_der_from_p8 ext pbuf (some none) (some l0) input_der input_der_len
        pw_cb pw_cbarg =
      { ret := 0, new_der := some none, new_der_len := some 0,
        trace := [Event.d2i_X509_SIG input_der input_der_len,
                  Event.pw_cb { pass := pbuf, pass_size := PEM_BUFSIZE, pass_len := 0,
                                params := none, arg := pw_cbarg },
                  Event.PKCS12_pbe_crypt
                    { algor := p8.algor, pass := (pw_cb pbuf PEM_BUFSIZE 0 none pw_cbarg).pass,
                      passlen := size_t_to_int (pw_cb pbuf PEM_BUFSIZE 0 none pw_cbarg).pass_len,
                      inp := p8.digest.data, inlen := p8.digest.length, en_de := 0 },
                  Event.X509_SIG_free (some p8)] } := by
  simp [ossl_prov_der_from_p8, ossl_assert, X509_SIG_get0, int_to_long, hp, hr, hc]

/-- Path 4: the provider succeeds and the decrypt operation returns a buffer. -/
theorem p8_path_decrypt_succeeds {α : Type} (ext : P8Externals) (pbuf : Bytes) (l0 : Int)
    (input_der : Bytes) (input_der_len : Int) (pw_cb : OSSL_PASSPHRASE_CALLBACK α)
    (pw_cbarg : α) (p8 : X509_SIG) (out : Bytes) (n : Int)
    (hp : ext.d2i_X509_SIG input_der input_der_len = some p8)
    (hr : (pw_cb pbuf PEM_BUFSIZE 0 none pw_cbarg).ret ≠ 0)
    (hc : ext.PKCS12_pbe_crypt p8.algor (pw_cb pbuf PEM_BUFSIZE 0 none pw_cbarg).pass
          (size_t_to_int (pw_cb pbuf PEM_BUFSIZE 0 none pw_cbarg).pass_len)
          p8.digest.data p8.digest.length 0 = some (out, n)) :
    ossl_prov_der_from_p8 ext pbuf (some none) (some l0) input_der input_der_len
        pw_cb pw_cbarg =
      { ret := 1, new_der := some (some out), new_der_len := some n,
        trace := [Event.d2i_X509_SIG input_der input_der_len,
                  Event.pw_cb { pass := pbuf, pass_size := PEM_BUFSIZE, pass_len := 0,
                                params := none, arg := pw_cbarg },
                  Event.PKCS12_pbe_crypt
                    { algor := p8.algor, pass := (pw_cb pbuf PEM_BUFSIZE 0 none pw_cbarg).pass,
                      passlen := size_t_to_int (pw_cb pbuf PEM_BUFSIZE 0 none pw_cbarg).pass_len,
                      inp := p8.digest.data, inlen := p8.digest.length, en_de := 0 },
                  Event.X509_SIG_free (some p8)] } := by
  simp [ossl_prov_der_from_p8, ossl_assert, X509_SIG_get0, int_to_long, hp, hr, hc]

/-- C1. Called with valid output pointers and `*new_der == NULL`,
`ossl_prov_der_from_p8` returns 1 exactly when the envelope parses, the
provider reports success and the decrypt operation returns a buffer (and
returns 0 otherwise); and then `*new_der` is that very buffer and
`*new_der_len` is the length the decrypt operation reported. -/
theorem der_from_p8_success_iff {α : Type} (ext : P8Externals) (pbuf : Bytes) (l0 : Int)
    (input_der : Bytes) (input_der_len : Int) (pw_cb : OSSL_PASSPHRASE_CALLBACK α)
    (pw_cbarg : α) :
    ((ossl_prov_der_from_p8 ext pbuf (some none) (some l0) input_der input_der_len
        pw_cb pw_cbarg).ret = 1 ↔
      ∃ p8 out n, ext.d2i_X509_SIG input_der input_der_len = some p8 ∧
        (pw_cb pbuf PEM_BUFSIZE 0 none pw_cbarg).ret ≠ 0 ∧
        ext.PKCS12_pbe_crypt p8.algor (pw_cb pbuf PEM_BUFSIZE 0 none pw_cbarg).pass
          (size_t_to_int (pw_cb pbuf PEM_BUFSIZE 0 none pw_cbarg).pass_len)
          p8.digest.data p8.digest.length 0 = some (out, n)) ∧
    (∀ p8 out n, ext.d2i_X509_SIG input_der input_der_len = some p8 →
        (pw_cb pbuf PEM_BUFSIZE 0 none pw_cbarg).ret ≠ 0 →
        ext.PKCS12_pbe_crypt p8.algor (pw_cb pbuf PEM_BUFSIZE 0 none pw_cbarg).pass
          (size_t_to_int (pw_cb pbuf PEM_BUFSIZE 0 none pw_cbarg).pass_len)
          p8.digest.data p8.digest.length 0 = some (out, n) →
        (ossl_prov_der_from_p8 ext pbuf (some none) (some l0) input_der input_der_len
          pw_cb pw_cbarg).new_der = some (some out) ∧
        (ossl_prov_der_from_p8 ext pbuf (some none) (some l0) input_der input_der_len
          pw_cb pw_cbarg).new_der_len = some n) ∧
    ((ossl_prov_der_from_p8 ext pbuf (some none) (some l0) input_der input_der_len
        pw_cb pw_cbarg).ret = 1 ∨
      (ossl_prov_der_from_p8 ext pbuf (some none) (some l0) input_der input_der_len
        pw_cb pw_cbarg).ret = 0) := by
  cases hp : ext.d2i_X509_SIG input_der input_der_len with
  | none =>
    rw [p8_path_not_envelope ext pbuf l0 input_der input_der_len pw_cb pw_cbarg hp]
    simp
  | some p8 =>
    by_cases hr : (pw_cb pbuf PEM_BUFSIZE 0 none pw_cbarg).ret = 0
    · rw [p8_path_provider_declines ext pbuf l0 input_der input_der_len pw_cb pw_cbarg p8 hp hr]
      simp [hr]
    · cases hc : ext.PKCS12_pbe_crypt p8.algor (pw_cb pbuf PEM_BUFSIZE 0 none pw_cbarg).pass
          (size_t_to_int (pw_cb pbuf PEM_BUFSIZE 0 none pw_cbarg).pass_len)
          p8.digest.data p8.digest.length 0 with
      | none =>
        rw [p8_path_decrypt_fails ext pbuf l0 input_der input_der_len pw_cb pw_cbarg p8 hp hr hc]
        refine ⟨⟨by simp, ?_⟩, ?_, Or.inr rfl⟩
        · rintro ⟨q, out, n, hq, -, h⟩
          cases hq
          rw [hc] at h
          cases h
        · intro q out n hq _ h
          cases hq
          rw [hc] at h
          cases h
      | some res =>
        obtain ⟨out, n⟩ := res
        rw [p8_path_decrypt_succeeds ext pbuf l0 input_der input_der_len pw_cb pw_cbarg p8 out n
          hp hr hc]
        refine ⟨⟨fun _ => ⟨p8, out, n, rfl, hr, hc⟩, fun _ => rfl⟩, ?_, Or.inl rfl⟩
        intro q o m hq _ h
        cases hq
        rw [hc] at h
        cases h
        exact ⟨rfl, rfl⟩

/-- C3. On an input that parses as an envelope, if the decrypt operation
fails for the passphrase the provider supplied (it returns no buffer),
`ossl_prov_der_from_p8` returns 0 and `*new_der` is still NULL. -/
theorem der_from_p8_decrypt_failure {α : Type} (ext : P8Externals) (pbuf : Bytes) (l0 : Int)
    (input_der : Bytes) (input_der_len : Int) (pw_cb : OSSL_PASSPHRASE_CALLBACK α)
    (pw_cbarg : α) (p8 : X509_SIG)
    (hp : ext.d2i_X509_SIG input_der input_der_len = some p8)
    (hc : ext.PKCS12_pbe_crypt p8.algor (pw_cb pbuf PEM_BUFSIZE 0 none pw_cbarg).pass
          (size_t_to_int (pw_cb pbuf PEM_BUFSIZE 0 none pw_cbarg).pass_len)
          p8.digest.data p8.digest.length 0 = none) :
    (ossl_prov_der_from_p8 ext pbuf (some none) (some l0) input_der input_der_len
        pw_cb pw_cbarg).ret = 0 ∧
    (ossl_prov_der_from_p8 ext pbuf (some none) (some l0) input_der input_der_len
        pw_cb pw_cbarg).new_der = some none := by
  by_cases hr : (pw_cb pbuf PEM_BUFSIZE 0 none pw_cbarg).ret = 0
  · rw [p8_path_provider_declines ext pbuf l0 input_der input_der_len pw_cb pw_cbarg p8 hp hr]
    exact ⟨rfl, rfl⟩
  · rw [p8_path_decrypt_fails ext pbuf l0 input_der input_der_len pw_cb pw_cbarg p8 hp hr hc]
    exact ⟨rfl, rfl⟩

/-- C4. On an input that does not parse as an envelope,
`ossl_prov_der_from_p8` returns 0, invokes neither the provider nor the
decrypt operation, and leaves `*new_der` and `*new_der_len` as they were. -/
theorem der_from_p8_not_envelope {α : Type} (ext : P8Externals) (pbuf : Bytes)
    (new_der : Option (Option Bytes)) (new_der_len : Option Int)
    (input_der : Bytes) (input_der_len : Int) (pw_cb : OSSL_PASSPHRASE_CALLBACK α)
    (pw_cbarg : α) (hp : ext.d2i_X509_SIG input_der input_der_len = none) :
    (ossl_prov_der_from_p8 ext pbuf new_der new_der_len input_der input_der_len
        pw_cb pw_cbarg).ret = 0 ∧
    providerCalls (ossl_prov_der_from_p8 ext pbuf new_der new_der_len input_der input_der_len
        pw_cb pw_cbarg).trace = [] ∧
    cryptCalls (ossl_prov_der_from_p8 ext pbuf new_der new_der_len input_der input_der_len
        pw_cb pw_cbarg).trace = [] ∧
    (ossl_prov_der_from_p8 ext pbuf new_der new_der_len input_der input_der_len
        pw_cb pw_cbarg).new_der = new_der ∧
    (ossl_prov_der_from_p8 ext pbuf new_der new_der_len input_der input_der_len
        pw_cb pw_cbarg).new_der_len = new_der_len := by
  unfold ossl_prov_der_from_p8
  split
  · exact ⟨rfl, rfl, rfl, rfl, rfl⟩
  · simp only []
    rw [hp]
    exact ⟨rfl, rfl, rfl, rfl, rfl⟩

/-- C5. On an input that parses as an envelope, if the provider reports
failure then `ossl_prov_der_from_p8` returns 0, raises exactly the error
`PROV_R_READ_KEY` of the provider library, does not invoke the decrypt
operation, and leaves `*new_der` (NULL) and `*new_der_len` as they were. -/
theorem der_from_p8_provider_failure {α : Type} (ext : P8Externals) (pbuf : Bytes) (l0 : Int)
    (input_der : Bytes) (input_der_len : Int) (pw_cb : OSSL_PASSPHRASE_CALLBACK α)
    (pw_cbarg : α) (p8 : X509_SIG)
    (hp : ext.d2i_X509_SIG input_der input_der_len = some p8)
    (hr : (pw_cb pbuf PEM_BUFSIZE 0 none pw_cbarg).ret = 0) :
    (ossl_prov_der_from_p8 ext pbuf (some none) (some l0) input_der input_der_len
        pw_cb pw_cbarg).ret = 0 ∧
    raisedErrors (ossl_prov_der_from_p8 ext pbuf (some none) (some l0) input_der input_der_len
        pw_cb pw_cbarg).trace = [(ErrLib.ERR_LIB_PROV, ErrReason.PROV_R_READ_KEY)] ∧
    cryptCalls (ossl_prov_der_from_p8 ext pbuf (some none) (some l0) input_der input_der_len
        pw_cb pw_cbarg).trace = [] ∧
    (ossl_prov_der_from_p8 ext pbuf (some none) (some l0) input_der input_der_len
        pw_cb pw_cbarg).new_der = some none ∧
    (ossl_prov_der_from_p8 ext pbuf (some none) (some l0) input_der input_der_len
        pw_cb pw_cbarg).new_der_len = some l0 := by
  rw [p8_path_provider_declines ext pbuf l0 input_der input_der_len pw_cb pw_cbarg p8 hp hr]
  exact ⟨rfl, rfl, rfl, rfl, rfl⟩

/-- A `size_t` value that an `int` can hold converts to itself. -/
theorem size_t_to_int_of_le (n : Nat) (h : (n : Int) ≤ INT_MAX) : size_t_to_int n = (n : Int) := by
  unfold INT_MAX at h
  unfold size_t_to_int
  have h1 : n % 4294967296 = n := Nat.mod_eq_of_lt (by omega)
  rw [h1, if_pos (by omega)]

/-- A `size_t` value within the capacity of the stack buffer is an `int` value. -/
theorem le_INT_MAX_of_le_PEM_BUFSIZE (n : Nat) (h : n ≤ PEM_BUFSIZE) : (n : Int) ≤ INT_MAX := by
  unfold PEM_BUFSIZE at h
  unfold INT_MAX
  omega

/-- C9. On an input that parses as an envelope `(alg, oct)`, for every
successful provider outcome whose secret length `plen` fits the buffer the
provider was handed (`plen ≤ PEM_BUFSIZE`), `ossl_prov_der_from_p8` invokes
the provider exactly once (on the stack buffer, with capacity `PEM_BUFSIZE`,
no parameters and the caller's argument) and the decrypt operation exactly
once, with `alg`, the secret buffer, length exactly `plen`, `oct->data`,
`oct->length` and decrypt mode; so `plen = 0` arrives as a zero-length
secret. -/
theorem der_from_p8_calls {α : Type} (ext : P8Externals) (pbuf : Bytes) (l0 : Int)
    (input_der : Bytes) (input_der_len : Int) (pw_cb : OSSL_PASSPHRASE_CALLBACK α)
    (pw_cbarg : α) (p8 : X509_SIG)
    (hp : ext.d2i_X509_SIG input_der input_der_len = some p8)
    (hr : (pw_cb pbuf PEM_BUFSIZE 0 none pw_cbarg).ret ≠ 0)
    (hlen : (pw_cb pbuf PEM_BUFSIZE 0 none pw_cbarg).pass_len ≤ PEM_BUFSIZE) :
    providerCalls (ossl_prov_der_from_p8 ext pbuf (some none) (some l0) input_der input_der_len
        pw_cb pw_cbarg).trace =
      [{ pass := pbuf, pass_size := PEM_BUFSIZE, pass_len := 0, params := none,
         arg := pw_cbarg }] ∧
    cryptCalls (ossl_prov_der_from_p8 ext pbuf (some none) (some l0) input_der input_der_len
        pw_cb pw_cbarg).trace =
      [{ algor := p8.algor, pass := (pw_cb pbuf PEM_BUFSIZE 0 none pw_cbarg).pass,
         passlen := ((pw_cb pbuf PEM_BUFSIZE 0 none pw_cbarg).pass_len : Int),
         inp := p8.digest.data, inlen := p8.digest.length, en_de := 0 }] := by
  rw [← size_t_to_int_of_le _ (le_INT_MAX_of_le_PEM_BUFSIZE _ hlen)]
  cases hc : ext.PKCS12_pbe_crypt p8.algor (pw_cb pbuf PEM_BUFSIZE 0 none pw_cbarg).pass
      (size_t_to_int (pw_cb pbuf PEM_BUFSIZE 0 none pw_cbarg).pass_len)
      p8.digest.data p8.digest.length 0 with
  | none =>
    rw [p8_path_decrypt_fails ext pbuf l0 input_der input_der_len pw_cb pw_cbarg p8 hp hr hc]
    exact ⟨rfl, rfl⟩
  | some res =>
    obtain ⟨out, n⟩ := res
    rw [p8_path_decrypt_succeeds ext pbuf l0 input_der input_der_len pw_cb pw_cbarg p8 out n
      hp hr hc]
    exact ⟨rfl, rfl⟩

/-- C2. Round trip: if the input parses as the envelope `(A, C)` with `C`
the reference encryption of `P` under `(A, pw)`, the provider supplies `pw`
(at most `PEM_BUFSIZE` bytes), and the decrypt operation inverts the
reference encryption under `(A, pw)`, then `ossl_prov_der_from_p8` returns 1
with `*new_der` equal to `P` and `*new_der_len` equal to the length of `P`. -/
theorem der_from_p8_round_trip {α : Type} (ext : P8Externals)
    (enc : X509_ALGOR → Bytes → Bytes → Bytes) (A : X509_ALGOR) (pw P : Bytes)
    (pbuf : Bytes) (l0 : Int) (input_der : Bytes) (input_der_len : Int)
    (pw_cb : OSSL_PASSPHRASE_CALLBACK α) (pw_cbarg : α)
    (hcap : pw.length ≤ PEM_BUFSIZE)
    (hp : ext.d2i_X509_SIG input_der input_der_len =
      some { algor := A, digest := { length := ((enc A pw P).length : Int), data := enc A pw P } })
    (hr : (pw_cb pbuf PEM_BUFSIZE 0 none pw_cbarg).ret ≠ 0)
    (hlen : (pw_cb pbuf PEM_BUFSIZE 0 none pw_cbarg).pass_len = pw.length)
    (hpass : (pw_cb pbuf PEM_BUFSIZE 0 none pw_cbarg).pass.take pw.length = pw)
    (hdec : ∀ pass : Bytes, pass.take pw.length = pw →
      ext.PKCS12_pbe_crypt A pass (pw.length : Int) (enc A pw P) ((enc A pw P).length : Int) 0 =
        some (P, (P.length : Int))) :
    (ossl_prov_der_from_p8 ext pbuf (some none) (some l0) input_der input_der_len
        pw_cb pw_cbarg).ret = 1 ∧
    (ossl_prov_der_from_p8 ext pbuf (some none) (some l0) input_der input_der_len
        pw_cb pw_cbarg).new_der = some (some P) ∧
    (ossl_prov_der_from_p8 ext pbuf (some none) (some l0) input_der input_der_len
        pw_cb pw_cbarg).new_der_len = some (P.length : Int) := by
  have hle : ((pw_cb pbuf PEM_BUFSIZE 0 none pw_cbarg).pass_len : Int) ≤ INT_MAX := by
    rw [hlen]
    unfold PEM_BUFSIZE at hcap
    unfold INT_MAX
    omega
  have hc := hdec _ hpass
  rw [← hlen, ← size_t_to_int_of_le _ hle] at hc
  rw [p8_path_decrypt_succeeds ext pbuf l0 input_der input_der_len pw_cb pw_cbarg _ P
    (P.length : Int) hp hr hc]
  exact ⟨rfl, rfl, rfl⟩

/-- C2, witness: the 32-byte plaintext encrypted under "correct-horse" (a
40-byte ciphertext) comes back byte for byte with length exactly 32. -/
theorem der_from_p8_round_trip_witness :
    (toyEncrypt toyAlg correctHorse plain32).length = 40 ∧ plain32.length = 32 ∧
    (ossl_prov_der_from_p8 toyExt [] (some none) (some 0) toyEnvelope 46
        (fixedProvider correctHorse) ()).ret = 1 ∧
    (ossl_prov_der_from_p8 toyExt [] (some none) (some 0) toyEnvelope 46
        (fixedProvider correctHorse) ()).new_der = some (some plain32) ∧
    (ossl_prov_der_from_p8 toyExt [] (some none) (some 0) toyEnvelope 46
        (fixedProvider correctHorse) ()).new_der_len = some 32 :=
  ⟨by decide, by decide,
   der_from_p8_round_trip toyExt toyEncrypt toyAlg correctHorse plain32 [] 0 toyEnvelope 46
     (fixedProvider correctHorse) () (by decide) (by decide) (by decide) (by decide) (by decide)
     (fun pass h => by
        unfold toyExt toyCrypt
        simp only [Int.toNat_natCast, h]
        decide)⟩

/-- C3, witness: the same envelope with the passphrase "wrong-horse" fails
and hands no buffer to the caller. -/
theorem der_from_p8_decrypt_failure_witness :
    (ossl_prov_der_from_p8 toyExt [] (some none) (some 0) toyEnvelope 46
        (fixedProvider wrongHorse) ()).ret = 0 ∧
    (ossl_prov_der_from_p8 toyExt [] (some none) (some 0) toyEnvelope 46
        (fixedProvider wrongHorse) ()).new_der = some none :=
  der_from_p8_decrypt_failure toyExt [] 0 toyEnvelope 46 (fixedProvider wrongHorse) ()
    { algor := toyAlg,
      digest := { length := 40, data := toyEncrypt toyAlg correctHorse plain32 } }
    (by decide) (by decide)

/-- C4, witness: three bytes that are no envelope. -/
theorem der_from_p8_not_envelope_witness :
    toyExt.d2i_X509_SIG [1, 2, 3] 3 = none ∧
    (ossl_prov_der_from_p8 toyExt [] (some none) (some 7) [1, 2, 3] 3
        (fixedProvider correctHorse) ()).ret = 0 ∧
    (ossl_prov_der_from_p8 toyExt [] (some none) (some 7) [1, 2, 3] 3
        (fixedProvider correctHorse) ()).new_der_len = some 7 :=
  ⟨by decide,
   (der_from_p8_not_envelope toyExt [] (some none) (some 7) [1, 2, 3] 3
      (fixedProvider correctHorse) () (by decide)).1,
   (der_from_p8_not_envelope toyExt [] (some none) (some 7) [1, 2, 3] 3
      (fixedProvider correctHorse) () (by decide)).2.2.2.2⟩

/-- C5, witness: a provider that declines. -/
theorem der_from_p8_provider_failure_witness :
    (ossl_prov_der_from_p8 toyExt [] (some none) (some 7) toyEnvelope 46
        decliningProvider ()).ret = 0 ∧
    raisedErrors (ossl_prov_der_from_p8 toyExt [] (some none) (some 7) toyEnvelope 46
        decliningProvider ()).trace = [(ErrLib.ERR_LIB_PROV, ErrReason.PROV_R_READ_KEY)] ∧
    cryptCalls (ossl_prov_der_from_p8 toyExt [] (some none) (some 7) toyEnvelope 46
        decliningProvider ()).trace = [] ∧
    (ossl_prov_der_from_p8 toyExt [] (some none) (some 7) toyEnvelope 46
        decliningProvider ()).new_der = some none ∧
    (ossl_prov_der_from_p8 toyExt [] (some none) (some 7) toyEnvelope 46
        decliningProvider ()).new_der_len = some 7 :=
  der_from_p8_provider_failure toyExt [] 7 toyEnvelope 46 decliningProvider ()
    { algor := toyAlg,
      digest := { length := 40, data := toyEncrypt toyAlg correctHorse plain32 } }
    (by decide) (by decide)

/-- C9, witness: a provider result of length 0 reaches the decrypt operation
as a zero-length secret, in one call. -/
theorem der_from_p8_calls_witness :
    providerCalls (ossl_prov_der_from_p8 toyExt [] (some none) (some 0) toyEnvelope 46
        (reportingProvider 0) ()).trace =
      [{ pass := [], pass_size := 1024, pass_len := 0, params := none, arg := () }] ∧
    cryptCalls (ossl_prov_der_from_p8 toyExt [] (some none) (some 0) toyEnvelope 46
        (reportingProvider 0) ()).trace =
      [{ algor := toyAlg, pass := [], passlen := 0,
         inp := toyEncrypt toyAlg correctHorse plain32, inlen := 40, en_de := 0 }] :=
  der_from_p8_calls toyExt [] 0 toyEnvelope 46 (reportingProvider 0) ()
    { algor := toyAlg,
      digest := { length := 40, data := toyEncrypt toyAlg correctHorse plain32 } }
    (by decide) (by decide) (by decide)

/-! ## Properties of the passphrase bridge -/

/-- C6. For a capacity `size` (an `int`; it is at least 0 as soon as some
length is at most `size`) and a provider outcome whose length is at most
`size`, `pw_pem_password_to_ossl_passhrase` returns that length when the
provider succeeded and -1 when it failed; so the result is negative exactly
when the provider failed, and an empty passphrase gives 0, not a failure. -/
theorem bridge_return_value {α : Type} (buf : Bytes) (size rwflag : Int)
    (userdata : pwdata_st α) (hi : size ≤ INT_MAX)
    (hle : ((userdata.pw_cb buf (int_to_size_t size) 0
        (some [OSSL_PARAM_utf8_string OSSL_PASSPHRASE_PARAM_INFO prompt_info 11, OSSL_PARAM_END])
        userdata.pw_cbarg).pass_len : Int) ≤ size) :
    ((userdata.pw_cb buf (int_to_size_t size) 0
        (some [OSSL_PARAM_utf8_string OSSL_PASSPHRASE_PARAM_INFO prompt_info 11, OSSL_PARAM_END])
        userdata.pw_cbarg).ret ≠ 0 →
      (pw_pem_password_to_ossl_passhrase buf size rwflag userdata).ret =
        ((userdata.pw_cb buf (int_to_size_t size) 0
          (some [OSSL_PARAM_utf8_string OSSL_PASSPHRASE_PARAM_INFO prompt_info 11,
                 OSSL_PARAM_END])
          userdata.pw_cbarg).pass_len : Int)) ∧
    ((userdata.pw_cb buf (int_to_size_t size) 0
        (some [OSSL_PARAM_utf8_string OSSL_PASSPHRASE_PARAM_INFO prompt_info 11, OSSL_PARAM_END])
        userdata.pw_cbarg).ret = 0 →
      (pw_pem_password_to_ossl_passhrase buf size rwflag userdata).ret = -1) ∧
    ((pw_pem_password_to_ossl_passhrase buf size rwflag userdata).ret < 0 ↔
      (userdata.pw_cb buf (int_to_size_t size) 0
        (some [OSSL_PARAM_utf8_string OSSL_PASSPHRASE_PARAM_INFO prompt_info 11, OSSL_PARAM_END])
        userdata.pw_cbarg).ret = 0) ∧
    ((userdata.pw_cb buf (int_to_size_t size) 0
        (some [OSSL_PARAM_utf8_string OSSL_PASSPHRASE_PARAM_INFO prompt_info 11, OSSL_PARAM_END])
        userdata.pw_cbarg).ret ≠ 0 →
      (userdata.pw_cb buf (int_to_size_t size) 0
        (some [OSSL_PARAM_utf8_string OSSL_PASSPHRASE_PARAM_INFO prompt_info 11, OSSL_PARAM_END])
        userdata.pw_cbarg).pass_len = 0 →
      (pw_pem_password_to_ossl_passhrase buf size rwflag userdata).ret = 0) := by
  have h11 : sizeof_prompt_info - 1 = 11 := by decide
  have hconv := size_t_to_int_of_le _ (le_trans hle hi)
  by_cases hr : (userdata.pw_cb buf (int_to_size_t size) 0
      (some [OSSL_PARAM_utf8_string OSSL_PASSPHRASE_PARAM_INFO prompt_info 11, OSSL_PARAM_END])
      userdata.pw_cbarg).ret = 0
  · have hret : (pw_pem_password_to_ossl_passhrase buf size rwflag userdata).ret = -1 := by
      unfold pw_pem_password_to_ossl_passhrase
      simp [h11, hr]
    rw [hret]
    exact ⟨fun h => absurd hr h, fun _ => rfl, ⟨fun _ => hr, fun _ => by decide⟩,
      fun h => absurd hr h⟩
  · have hret : (pw_pem_password_to_ossl_passhrase buf size rwflag userdata).ret =
        ((userdata.pw_cb buf (int_to_size_t size) 0
          (some [OSSL_PARAM_utf8_string OSSL_PASSPHRASE_PARAM_INFO prompt_info 11,
                 OSSL_PARAM_END])
          userdata.pw_cbarg).pass_len : Int) := by
      unfold pw_pem_password_to_ossl_passhrase
      simp [h11, hr, hconv]
    rw [hret]
    refine ⟨fun _ => rfl, fun h => absurd h hr, ⟨fun h => ?_, fun h => absurd h hr⟩, fun _ hz => ?_⟩
    · omega
    · rw [hz]
      rfl

/-- C6, witness: with capacity 1024 a provider that supplies the empty
passphrase yields 0, and one that declines yields a negative result. -/
theorem bridge_return_value_witness :
    (0 : Int) ≤ 1024 ∧
    (pw_pem_password_to_ossl_passhrase [] 1024 0
      { pw_cb := fixedProvider [], pw_cbarg := () }).ret = 0 ∧
    ¬ (pw_pem_password_to_ossl_passhrase [] 1024 0
      { pw_cb := fixedProvider [], pw_cbarg := () }).ret < 0 :=
  ⟨by decide,
   (bridge_return_value [] 1024 0 { pw_cb := fixedProvider [], pw_cbarg := () }
      (by decide) (by decide)).2.2.2 (by decide) (by decide),
   fun h => absurd
     ((bridge_return_value [] 1024 0 { pw_cb := fixedProvider [], pw_cbarg := () }
        (by decide) (by decide)).2.2.1.mp h) (by decide)⟩

/-- The cast `(size_t)size` of an `int` that is not negative is `size`. -/
theorem int_to_size_t_of_nonneg (size : Int) (h0 : 0 ≤ size) (hi : size ≤ INT_MAX) :
    int_to_size_t size = size.toNat := by
  unfold INT_MAX at hi
  unfold int_to_size_t
  rw [Int.emod_eq_of_lt h0 (by omega)]

/-- C10. Every call of `pw_pem_password_to_ossl_passhrase` with a capacity
`size` (an `int`, not negative) invokes the provider stored in the user data
exactly once, with the caller's buffer, capacity equal to `size`, the
caller's callback argument, and a context record whose one entry, under the
key "info", is the text "pass phrase" of length 11; the buffer and the
return value are those of that one invocation, and nothing depends on
`rwflag`. -/
theorem bridge_invokes_provider_once {α : Type} (buf : Bytes) (size rwflag : Int)
    (userdata : pwdata_st α) (h0 : 0 ≤ size) (hi : size ≤ INT_MAX) :
    (pw_pem_password_to_ossl_passhrase buf size rwflag userdata).calls =
      [{ pass := buf, pass_size := size.toNat, pass_len := 0,
         params := some [{ key := some "info", data_type := ParamDataType.UTF8_STRING,
                           data := some "pass phrase", data_size := 11 },
                         OSSL_PARAM_END],
         arg := userdata.pw_cbarg }] ∧
    ((size.toNat : Nat) : Int) = size ∧
    (pw_pem_password_to_ossl_passhrase buf size rwflag userdata).buf =
      (userdata.pw_cb buf size.toNat 0
        (some [{ key := some "info", data_type := ParamDataType.UTF8_STRING,
                 data := some "pass phrase", data_size := 11 }, OSSL_PARAM_END])
        userdata.pw_cbarg).pass ∧
    (pw_pem_password_to_ossl_passhrase buf size rwflag userdata).ret =
      (if (userdata.pw_cb buf size.toNat 0
            (some [{ key := some "info", data_type := ParamDataType.UTF8_STRING,
                     data := some "pass phrase", data_size := 11 }, OSSL_PARAM_END])
            userdata.pw_cbarg).ret ≠ 0
       then size_t_to_int (userdata.pw_cb buf size.toNat 0
            (some [{ key := some "info", data_type := ParamDataType.UTF8_STRING,
                     data := some "pass phrase", data_size := 11 }, OSSL_PARAM_END])
            userdata.pw_cbarg).pass_len
       else -1) ∧
    (∀ rwflag2 : Int, pw_pem_password_to_ossl_passhrase buf size rwflag2 userdata =
      pw_pem_password_to_ossl_passhrase buf size rwflag userdata) := by
  have h11 : sizeof_prompt_info - 1 = 11 := by decide
  have hpar : OSSL_PARAM_utf8_string OSSL_PASSPHRASE_PARAM_INFO prompt_info 11 =
      { key := some "info", data_type := ParamDataType.UTF8_STRING,
        data := some "pass phrase", data_size := 11 } := rfl
  have hcap := int_to_size_t_of_nonneg size h0 hi
  refine ⟨?_, Int.toNat_of_nonneg h0, ?_, ?_, fun _ => rfl⟩
  · unfold pw_pem_password_to_ossl_passhrase
    simp only [h11, hpar, hcap]
    split <;> rfl
  · unfold pw_pem_password_to_ossl_passhrase
    simp only [h11, hpar, hcap]
    split <;> rfl
  · unfold pw_pem_password_to_ossl_passhrase
    simp only [h11, hpar, hcap]
    split <;> rfl

/-- C10, witness: called with capacity 1024, the bridge invokes the provider
once, with capacity 1024 and the "pass phrase" entry. -/
theorem bridge_invokes_provider_once_witness :
    (0 : Int) ≤ 1024 ∧ (1024 : Int) ≤ INT_MAX ∧
    (pw_pem_password_to_ossl_passhrase [7, 7] 1024 1
      { pw_cb := fixedProvider [], pw_cbarg := () }).calls =
      [{ pass := [7, 7], pass_size := 1024, pass_len := 0,
         params := some [{ key := some "info", data_type := ParamDataType.UTF8_STRING,
                           data := some "pass phrase", data_size := 11 },
                         OSSL_PARAM_END],
         arg := () }] :=
  ⟨by decide, by decide,
   (bridge_invokes_provider_once [7, 7] 1024 1 { pw_cb := fixedProvider [], pw_cbarg := () }
      (by decide) (by decide)).1⟩

/-! ## Properties of the stream readers -/

/-- Creating a wrapper and releasing it leaves it released exactly once. -/
theorem released_once_new_free (w : BioWorld) (provctx : PROV_CTX) (cin : Bytes)
    (hw : w.fresh) :
    ReleasedOnce w provctx cin
      (BIO_free (bio_new_from_core_bio w provctx cin).2 (bio_new_from_core_bio w provctx cin).1) := by
  have hn : w.next_id ∉ w.live := fun h => Nat.lt_irrefl _ (hw _ h)
  refine ⟨{ id := w.next_id, core := cin }, rfl, rfl, ?_, ?_⟩
  · simpa [BIO_free, bio_new_from_core_bio] using hn
  · simp [BIO_free, bio_new_from_core_bio]

/-- C8. Each of `ossl_prov_read_der`, `ossl_prov_read_pem`,
`ossl_prov_read_msblob` and `ossl_prov_read_pvk` releases the stream wrapper
it created exactly once before it returns, whatever the underlying decoder
does: on return the release log has grown by exactly that wrapper, and the
wrapper is not open. -/
theorem readers_release_wrapper {α κ : Type} (w : BioWorld) (provctx : PROV_CTX) (cin : Bytes)
    (data : Option Bytes) (len : Int)
    (PEM_read_bio : Option BIO → PemOuts → Int × PemOuts) (outs : PemOuts)
    (ossl_b2i_bio : Option BIO → Int → Option κ × Int) (ispub : Int)
    (b2i_PVK_bio : Option BIO → pem_password_cb α → pwdata_st α → Option κ)
    (pw_cb : OSSL_PASSPHRASE_CALLBACK α) (pw_cbarg : α) (hw : w.fresh) :
    ReleasedOnce w provctx cin (ossl_prov_read_der w provctx cin data len).world ∧
    ReleasedOnce w provctx cin (ossl_prov_read_pem PEM_read_bio w provctx cin outs).world ∧
    ReleasedOnce w provctx cin (ossl_prov_read_msblob ossl_b2i_bio w provctx cin ispub).world ∧
    ReleasedOnce w provctx cin
      (ossl_prov_read_pvk b2i_PVK_bio w provctx cin pw_cb pw_cbarg).world := by
  refine ⟨?_, released_once_new_free w provctx cin hw, released_once_new_free w provctx cin hw,
    released_once_new_free w provctx cin hw⟩
  have hworld : (ossl_prov_read_der w provctx cin data len).world =
      BIO_free (bio_new_from_core_bio w provctx cin).2 (bio_new_from_core_bio w provctx cin).1 := by
    unfold ossl_prov_read_der
    simp only []
    cases asn1_d2i_read_bio (bio_new_from_core_bio w provctx cin).1 <;> rfl
  rw [hworld]
  exact released_once_new_free w provctx cin hw

/-- C8, witness: in a world with wrappers 0 and 2 open, every reader leaves
exactly those open and releases the wrapper 3 it created. -/
theorem readers_release_wrapper_witness :
    toyWorld.fresh ∧
    ReleasedOnce toyWorld toyCtx [5, 0] (ossl_prov_read_der toyWorld toyCtx [5, 0] none 0).world ∧
    ReleasedOnce toyWorld toyCtx [5, 0]
      (ossl_prov_read_pem toyPemRead toyWorld toyCtx [5, 0] toyOuts).world ∧
    ReleasedOnce toyWorld toyCtx [5, 0]
      (ossl_prov_read_msblob toyB2i toyWorld toyCtx [5, 0] 0).world ∧
    ReleasedOnce toyWorld toyCtx [5, 0]
      (ossl_prov_read_pvk toyPvk toyWorld toyCtx [5, 0] (fixedProvider []) ()).world :=
  ⟨by unfold BioWorld.fresh; decide,
   readers_release_wrapper toyWorld toyCtx [5, 0] none 0 toyPemRead toyOuts toyB2i 0 toyPvk
     (fixedProvider []) () (by unfold BioWorld.fresh; decide)⟩

/-- Reading back well-formed continuation octets. -/
theorem readIdentTail_append (t rest : Bytes) (h : validIdentTail t = true) :
    readIdentTail (t ++ rest) = some (t, rest) := by
  induction t with
  | nil => simp [validIdentTail] at h
  | cons b t ih =>
    cases t with
    | nil =>
      have hb : b < 128 := by simpa [validIdentTail] using h
      simp [readIdentTail, hb]
    | cons c t2 =>
      have h2 : (128 ≤ b ∧ b < 256) ∧ validIdentTail (c :: t2) = true := by
        simpa [validIdentTail] using h
      obtain ⟨⟨h128, h256⟩, ht⟩ := h2
      have hnot : ¬ b < 128 := by omega
      have hrec := ih ht
      rw [List.cons_append, readIdentTail, if_neg hnot, if_pos h256, hrec]

/-- Reading back well-formed identifier octets. -/
theorem readIdent_append (i rest : Bytes) (h : validIdent i = true) :
    readIdent (i ++ rest) = some (i, rest) := by
  cases i with
  | nil => simp [validIdent] at h
  | cons b t =>
    cases t with
    | nil =>
      have hb : b < 256 ∧ ¬ b % 32 = 31 := by simpa [validIdent] using h
      have hnot : ¬ 256 ≤ b := by omega
      simp [readIdent, hnot, hb.2]
    | cons c t2 =>
      have h2 : (b < 256 ∧ b % 32 = 31) ∧ validIdentTail (c :: t2) = true := by
        simpa [validIdent] using h
      obtain ⟨⟨h256, h31⟩, ht⟩ := h2
      have hnot : ¬ 256 ≤ b := by omega
      have hrec := readIdentTail_append (c :: t2) rest ht
      rw [List.cons_append, readIdent, if_neg hnot, if_pos h31, hrec]

/-- Big-endian octets written from the base-256 digits give the number back. -/
theorem beValue_reverse_digits (n : Nat) : beValue (Nat.digits 256 n).reverse = n := by
  have key : ∀ l : List Nat, beValue l.reverse = Nat.ofDigits 256 l := by
    intro l
    unfold beValue
    rw [List.foldl_reverse]
    induction l with
    | nil => rfl
    | cons d l ih =>
      rw [List.foldr_cons, ih, Nat.ofDigits_cons]
      ring
  rw [key, Nat.ofDigits_digits]

/-- Reading back the DER length octets of a length whose long form needs at
most 126 octets. -/
theorem readLength_derLengthOctets (n : Nat) (rest : Bytes)
    (hk : (Nat.digits 256 n).length ≤ 126) :
    readLength (derLengthOctets n ++ rest) = some (n, derLengthOctets n, rest) := by
  unfold derLengthOctets
  by_cases hn : n < 128
  · simp [hn, readLength]
  · have hne : n ≠ 0 := by omega
    have hnil : Nat.digits 256 n ≠ [] := Nat.digits_ne_nil_iff_ne_zero.mpr hne
    have hpos : 0 < (Nat.digits 256 n).length := List.length_pos.mpr hnil
    have hlen : (Nat.digits 256 n).reverse.length = (Nat.digits 256 n).length :=
      List.length_reverse _
    have htake : List.take (Nat.digits 256 n).length ((Nat.digits 256 n).reverse ++ rest) =
        (Nat.digits 256 n).reverse := List.take_left' hlen
    have hdrop : List.drop (Nat.digits 256 n).length ((Nat.digits 256 n).reverse ++ rest) =
        rest := List.drop_left' hlen
    have hhead : (Nat.digits 256 n).reverse.head? ≠ some 0 := by
      rw [List.head?_reverse, List.getLast?_eq_getLast _ hnil]
      intro h
      exact Nat.getLast_digit_ne_zero 256 hne (Option.some.inj h)
    have hsub : 128 + (Nat.digits 256 n).length - 128 = (Nat.digits 256 n).length := by omega
    rw [if_neg hn, List.cons_append, readLength]
    rw [if_neg (by omega), if_neg (by omega), hsub, htake, hdrop,
      if_neg (by rw [List.length_append, hlen]; omega), if_neg hhead,
      beValue_reverse_digits, if_neg hn]

/-- A length that a `long` can hold has at most eight base-256 digits. -/
theorem digits_length_le_of_long (n : Nat) (h : (n : Int) ≤ LONG_MAX) :
    (Nat.digits 256 n).length ≤ 126 := by
  unfold LONG_MAX at h
  by_cases hn : n = 0
  · simp [hn]
  · have h1 := Nat.base_pow_length_digits_le 256 n (by decide) hn
    by_contra hc
    have h9 : 9 ≤ (Nat.digits 256 n).length := by omega
    have h2 : 256 ^ 9 ≤ 256 ^ (Nat.digits 256 n).length :=
      Nat.pow_le_pow_right (by decide) h9
    have h3 : (256 : Nat) ^ 9 = 4722366482869645213696 := by norm_num
    omega

/-- A `size_t` value that a `long` can hold converts to itself. -/
theorem size_t_to_long_of_le (n : Nat) (h : (n : Int) ≤ LONG_MAX) :
    size_t_to_long n = (n : Int) := by
  unfold LONG_MAX at h
  unfold size_t_to_long
  have h1 : n % 18446744073709551616 = n := Nat.mod_eq_of_lt (by omega)
  rw [h1, if_pos (by omega)]

/-- Under the model of `asn1_d2i_read_bio`, a stream that starts with one
complete DER value yields a buffer holding exactly that value. -/
theorem asn1_d2i_read_bio_first_value (id : Nat) (ident content trailing : Bytes)
    (hid : validIdent ident = true)
    (hk : (Nat.digits 256 content.length).length ≤ 126) :
    asn1_d2i_read_bio (some { id := id, core := derValue ident content ++ trailing }) =
      some { length := (derValue ident content).length, data := derValue ident content } := by
  have hcore : derValue ident content ++ trailing =
      ident ++ (derLengthOctets content.length ++ (content ++ trailing)) := by
    simp [derValue, List.append_assoc]
  unfold asn1_d2i_read_bio
  simp only [hcore, readIdent_append ident _ hid,
    readLength_derLengthOctets content.length _ hk]
  rw [if_neg (by rw [List.length_append]; omega)]
  simp [derValue, List.take_left']

/-- C7. For a stream made of one complete, well-formed top-level DER value
(one that fits a `long` length) followed by any trailing bytes,
`ossl_prov_read_der` succeeds and hands back in `*data` and `*len` exactly
the bytes of that value, header included, and its encoded length. -/
theorem read_der_first_value (w : BioWorld) (provctx : PROV_CTX)
    (ident content trailing : Bytes) (data : Option Bytes) (len : Int)
    (hid : validIdent ident = true)
    (hfit : ((derValue ident content).length : Int) ≤ LONG_MAX) :
    (ossl_prov_read_der w provctx (derValue ident content ++ trailing) data len).ret = 1 ∧
    (ossl_prov_read_der w provctx (derValue ident content ++ trailing) data len).data =
      some (derValue ident content) ∧
    (ossl_prov_read_der w provctx (derValue ident content ++ trailing) data len).len =
      ((derValue ident content).length : Int) := by
  have hc : (content.length : Int) ≤ LONG_MAX := by
    have : content.length ≤ (derValue ident content).length := by
      simp only [derValue, List.length_append]
      omega
    omega
  have hk := digits_length_le_of_long content.length hc
  have hmem := asn1_d2i_read_bio_first_value w.next_id ident content trailing hid hk
  unfold ossl_prov_read_der
  simp [bio_new_from_core_bio, hmem, size_t_to_long_of_le _ hfit]

/-- C7, witness: the DER NULL value `05 00` followed by three trailing bytes. -/
theorem read_der_first_value_witness :
    derValue [5] [] ++ [170, 187, 204] = [5, 0, 170, 187, 204] ∧
    (ossl_prov_read_der toyWorld toyCtx [5, 0, 170, 187, 204] none 0).ret = 1 ∧
    (ossl_prov_read_der toyWorld toyCtx [5, 0, 170, 187, 204] none 0).data = some [5, 0] ∧
    (ossl_prov_read_der toyWorld toyCtx [5, 0, 170, 187, 204] none 0).len = 2 :=
  ⟨by decide,
   read_der_first_value toyWorld toyCtx [5] [] [170, 187, 204] none 0 (by decide) (by decide)⟩

end DeserializeCommon
